import Mathlib

/-!
# Verification of the wmctrl subprocess binding

A shallow embedding of the crate's two source files (`src/lib.rs`,
`src/window.rs`).  The crate shells out to the external `wmctrl` tool:
every operation formats an argument string, hands `"wmctrl " ++ args`
to `sh -c`, and either panics (spawn failure) or receives the raw
`Output` of the subprocess.

The external world is modelled by an `Env` holding `exec`, a function
from the command line handed to the shell to `Option Output`; `none`
models "the subprocess could not be spawned" (the only failure the
code surfaces), `some o` models a started subprocess whose raw output
is `o`.  Each embedded operation returns an `OpResult`: the value the
Rust function produces (inside `Except`, whose `error` case is the
panic raised by `expect`) together with the list of command lines the
operation handed to the shell, in order.

Modules `utils`, `desktop`, `state` and `transformation`, and the list
parser, are referenced by `window.rs` but their sources are not part of
the two files; those definitions are modelled from the specification
and are marked as such in their doc comments.
-/

namespace Wmctrl

/-- Raw result of a started subprocess: exit status, stdout and stderr
(`std::process::Output`). -/
structure Output where
  status : Int
  stdout : String
  stderr : String
deriving Repr, DecidableEq

/-- The command line handed to `sh -c`: `format!("wmctrl {}", args)` in
`lib.rs`. -/
def shCmd (args : String) : String := "wmctrl " ++ args

/-- The panic message of `lib.rs`:
`expect(&format!("failed to execute 'wmctrl {}'", args))`. -/
def panicMsg (args : String) : String :=
  "failed to execute \x27wmctrl " ++ args ++ "\x27"

/-- Observable outcome of one Rust call: the returned value (or the
panic message, as `Except.error`) and the command lines handed to the
shell, in order. -/
structure OpResult (α : Type) where
  value : Except String α
  cmds : List String
deriving Repr

/-- `fn wmctrl(args: &str) -> Output` of `lib.rs`: spawn
`sh -c "wmctrl <args>"`; panic if the spawn fails, otherwise return the
raw output untouched.  The spec describes a single subprocess-invoker
component, so this definition also stands for `utils::wmctrl`, the
identically-described invoker `window.rs` imports (module `utils` is
not among the source files). -/
def wmctrl (exec : String → Option Output) (args : String) : OpResult Output :=
  match exec (shCmd args) with
  | none => { value := Except.error (panicMsg args), cmds := [shCmd args] }
  | some o => { value := Except.ok o, cmds := [shCmd args] }

/-- `pub fn list_windows()` of `lib.rs`: exactly `wmctrl("-l")`. -/
def list_windows (exec : String → Option Output) : OpResult Output :=
  wmctrl exec "-l"

/-- `pub fn show_information_about_wm()` of `lib.rs`: exactly
`wmctrl("-m")`. -/
def show_information_about_wm (exec : String → Option Output) : OpResult Output :=
  wmctrl exec "-m"

/-- The environment a call runs in: how the shell responds to each
command line, and the desktop that is current at the time of the
call. -/
structure Env where
  exec : String → Option Output
  currentDesktop : String

/-- Modelled from the spec: `desktop::get_current_desktop`, imported by
`window.rs` but not among the source files.  It returns the desktop
that is current at the time of the call; per the spec (§5, "Single
synchronous call per operation") it is modelled as reading that value
from the environment without a subprocess invocation of its own. -/
def get_current_desktop (E : Env) : String := E.currentDesktop

/-- Modelled from the spec: `transformation::Transformation`, imported
by `window.rs` but not among the source files.  Per the spec §3: "a
desired position and size (x, y, width, height) used to request a
move/resize". -/
structure Transformation where
  x : Int
  y : Int
  width : Int
  height : Int
deriving Repr, DecidableEq

/-- Modelled from the spec: the rendering of a `Transformation` as the
external tool's `<MVARG>` (`gravity,x,y,width,height`, with gravity
fixed at 0 since the spec gives only position and size). -/
def Transformation.display (t : Transformation) : String :=
  "0," ++ toString t.x ++ "," ++ toString t.y ++ ","
    ++ toString t.width ++ "," ++ toString t.height

/-- Modelled from the spec: the action of a state change request
(add/remove/toggle), spec §3. -/
inductive Action where
  | add
  | remove
  | toggle
deriving Repr, DecidableEq

/-- Modelled from the spec: the named property of a state change
request (spec §3 names fullscreen and maximized as examples). -/
inductive Property where
  | fullscreen
  | maximized_vert
  | maximized_horz
  | hidden
  | above
deriving Repr, DecidableEq

/-- Modelled from the spec: `state::State`, imported by `window.rs` but
not among the source files.  Per the spec §3: "an action
(add/remove/toggle) plus a named property (e.g., fullscreen,
maximized), mapped directly to the external tool's flag syntax". -/
structure State where
  action : Action
  property : Property
deriving Repr, DecidableEq

/-- Modelled from the spec: the flag-syntax word for an `Action`. -/
def Action.display : Action → String
  | Action.add => "add"
  | Action.remove => "remove"
  | Action.toggle => "toggle"

/-- Modelled from the spec: the flag-syntax word for a `Property`. -/
def Property.display : Property → String
  | Property.fullscreen => "fullscreen"
  | Property.maximized_vert => "maximized_vert"
  | Property.maximized_horz => "maximized_horz"
  | Property.hidden => "hidden"
  | Property.above => "above"

/-- Modelled from the spec: the rendering of a `State` as the external
tool's `<STARG>` (`action,property`). -/
def State.display (s : State) : String :=
  s.action.display ++ "," ++ s.property.display

/-- `pub struct Window` of `window.rs`: id, desktop, client machine,
title, transformation and class.  The source field `class` is a Lean
keyword, hence the guillemets. -/
structure Window where
  id : String
  desktop : String
  client_machine : String
  title : String
  transformation : Transformation
  «class» : String
deriving Repr, DecidableEq

/-- `Window::new` of `window.rs` (crate-private in the source): builds
a `Window` from its six fields, in order. -/
def Window.new (id desktop client_machine title : String)
    (transformation : Transformation) (cls : String) : Window :=
  ⟨id, desktop, client_machine, title, transformation, cls⟩

/-- `fn get(&self)` of `window.rs`: `format!("{} -i", self.id)`, the
window designator used by every window operation. -/
def Window.get (w : Window) : String := w.id ++ " -i"

/-- The shape every window operation of `window.rs` shares: one call of
the invoker `wmctrl(&args)` whose output is dropped, the method itself
producing `v` (the post-state of the window, or `()` for `close`). -/
def runOp (exec : String → Option Output) (args : String) (v : α) : OpResult α :=
  { value := (wmctrl exec args).value.map (fun _ => v)
    cmds := (wmctrl exec args).cmds }

/-- `Window::set_title`: set the local `title` field, then
`wmctrl(&format!("-r {} -N {}", self.get(), title))`. -/
def Window.set_title (w : Window) (E : Env) (title : String) : OpResult Window :=
  let w' : Window := { w with title := title }
  runOp E.exec ("-r " ++ w'.get ++ " -N " ++ title) w'

/-- `Window::set_icon_title` (`&self`, no field update):
`wmctrl(&format!("-r {} -I {}", self.get(), title))`. -/
def Window.set_icon_title (w : Window) (E : Env) (title : String) : OpResult Window :=
  runOp E.exec ("-r " ++ w.get ++ " -I " ++ title) w

/-- `Window::set_both_title`: set the local `title` field, then
`wmctrl(&format!("-r {} -T {}", self.get(), title))`. -/
def Window.set_both_title (w : Window) (E : Env) (title : String) : OpResult Window :=
  let w' : Window := { w with title := title }
  runOp E.exec ("-r " ++ w'.get ++ " -T " ++ title) w'

/-- `Window::change_state` (`&self`, no field update):
`wmctrl(&format!("-r {} -b {}", self.get(), state))`. -/
def Window.change_state (w : Window) (E : Env) (s : State) : OpResult Window :=
  runOp E.exec ("-r " ++ w.get ++ " -b " ++ s.display) w

/-- `Window::transform`: set the local `transformation` field, then
`wmctrl(&format!("-r {} -e {}", self.get(), &self.transformation))`
(the freshly assigned transformation). -/
def Window.transform (w : Window) (E : Env) (t : Transformation) : OpResult Window :=
  let w' : Window := { w with transformation := t }
  runOp E.exec ("-r " ++ w'.get ++ " -e " ++ w'.transformation.display) w'

/-- `Window::set_desktop`: set the local `desktop` field, then
`wmctrl(&format!("-r {} -t {}", self.get(), desktop))`. -/
def Window.set_desktop (w : Window) (E : Env) (desktop : String) : OpResult Window :=
  let w' : Window := { w with desktop := desktop }
  runOp E.exec ("-r " ++ w'.get ++ " -t " ++ desktop) w'

/-- `Window::activate`: set the local `desktop` field to
`get_current_desktop()`, then `wmctrl(&format!("-R {}", self.get()))`. -/
def Window.activate (w : Window) (E : Env) : OpResult Window :=
  let w' : Window := { w with desktop := get_current_desktop E }
  runOp E.exec ("-R " ++ w'.get) w'

/-- `Window::raise` (`&self`, no field update):
`wmctrl(&format!("-a {}", self.get()))`. -/
def Window.raise (w : Window) (E : Env) : OpResult Window :=
  runOp E.exec ("-a " ++ w.get) w

/-- `Window::close` (consumes `self`):
`wmctrl(&format!("-c {}", self.get()))`. -/
def Window.close (w : Window) (E : Env) : OpResult Unit :=
  runOp E.exec ("-c " ++ w.get) ()

/-- Helper of `whitespaceSplit`: walk the characters, `acc` holding the
(reversed) current word. -/
def whitespaceSplitAux : List Char → List Char → List String
  | [], acc => if acc.isEmpty then [] else [String.mk acc.reverse]
  | c :: rest, acc =>
    if c.isWhitespace then
      if acc.isEmpty then whitespaceSplitAux rest []
      else String.mk acc.reverse :: whitespaceSplitAux rest []
    else whitespaceSplitAux rest (c :: acc)

/-- Maximal nonempty whitespace-separated runs of a string.  Used both
as the field splitter of the list parser (Rust `split_whitespace`) and
as the model of POSIX field splitting of an unquoted simple command
line by `sh`. -/
def whitespaceSplit (s : String) : List String :=
  whitespaceSplitAux s.toList []

/-- Helper of `strToInt?`: read decimal digits, failing on any other
character. -/
def natOfDigitsAux : List Char → Nat → Option Nat
  | [], n => some n
  | c :: cs, n => if c.isDigit then natOfDigitsAux cs (n * 10 + (c.toNat - 48)) else none

/-- Decimal integer parsing of a geometry field (an optional leading
minus sign followed by decimal digits), as Rust's `str::parse` of a
signed integer. -/
def strToInt? (s : String) : Option Int :=
  match s.toList with
  | [] => none
  | '-' :: cs =>
    if cs.isEmpty then none
    else (natOfDigitsAux cs 0).map (fun n => -(n : Int))
  | cs => (natOfDigitsAux cs 0).map Int.ofNat

/-- Modelled from the spec: the line-oriented list parser (the crate's
window-listing parser is not among the source files).  Per the spec it
splits one line of the tool's whitespace/tab-delimited list output on
whitespace into a fixed number of fields — identifier, desktop,
geometry (x, y, width, height), class, client machine — with the
remaining words forming the title, and populates one window record via
`Window.new`. -/
def parseLine (line : String) : Option Window :=
  match whitespaceSplit line with
  | id :: desktop :: x :: y :: w :: h :: cls :: client :: rest =>
    match strToInt? x, strToInt? y, strToInt? w, strToInt? h with
    | some xi, some yi, some wi, some hi =>
        some (Window.new id desktop client (String.intercalate " " rest)
          ⟨xi, yi, wi, hi⟩ cls)
    | _, _, _, _ => none
  | _ => none

/-- Helper of `linesOf`: split the characters at every newline. -/
def splitLinesAux : List Char → List Char → List String
  | [], acc => [String.mk acc.reverse]
  | c :: rest, acc =>
    if c = '\n' then String.mk acc.reverse :: splitLinesAux rest []
    else splitLinesAux rest (c :: acc)

/-- The lines of the tool's stdout (Rust `str::lines`). -/
def linesOf (s : String) : List String := splitLinesAux s.toList []

/-- Modelled from the spec: the list parser applied line by line to the
tool's stdout; each successfully parsed line yields one window
record. -/
def parseListOutput (stdout : String) : List Window :=
  (linesOf stdout).filterMap parseLine

/-! ## Helper lemmas (shared by the claim theorems) -/

/-- The value every operation produces, as a function of whether its
single spawn succeeded: the panic message on spawn failure, otherwise
`v` — the subprocess output is ignored entirely. -/
def outcome (exec : String → Option Output) (args : String) (v : α) : Except String α :=
  match exec (shCmd args) with
  | none => Except.error (panicMsg args)
  | some _ => Except.ok v

theorem wmctrl_value (exec : String → Option Output) (args : String) :
    (wmctrl exec args).value
      = (exec (shCmd args)).elim (Except.error (panicMsg args)) Except.ok := by
  unfold wmctrl
  cases exec (shCmd args) <;> rfl

theorem wmctrl_cmds (exec : String → Option Output) (args : String) :
    (wmctrl exec args).cmds = [shCmd args] := by
  unfold wmctrl
  cases exec (shCmd args) <;> rfl

theorem runOp_value (exec : String → Option Output) (args : String) (v : α) :
    (runOp exec args v).value = outcome exec args v := by
  unfold runOp wmctrl outcome
  cases exec (shCmd args) <;> rfl

theorem runOp_cmds (exec : String → Option Output) (args : String) (v : α) :
    (runOp exec args v).cmds = [shCmd args] := by
  unfold runOp wmctrl
  cases exec (shCmd args) <;> rfl

/-! ## Claim theorems -/

/-- C1: For every operation of the binding, the only failure mode
surfaced is that the subprocess could not be spawned (`exec` returned
`none`), and that failure is the fatal panic of `expect`; whenever the
subprocess does start, the invoker hands its raw output straight back
(`Except.ok o` for the exact `o` received) and every operation
succeeds with a value that does not depend on the subprocess's exit
status, stdout or stderr, so failures of the external tool itself are
never reported. -/
theorem only_spawn_failure_is_surfaced :
    (∀ (exec : String → Option Output) (args : String),
      (wmctrl exec args).value
        = (exec (shCmd args)).elim (Except.error (panicMsg args)) Except.ok) ∧
    (∀ exec, (list_windows exec).value
        = (exec (shCmd "-l")).elim (Except.error (panicMsg "-l")) Except.ok) ∧
    (∀ exec, (show_information_about_wm exec).value
        = (exec (shCmd "-m")).elim (Except.error (panicMsg "-m")) Except.ok) ∧
    (∀ (E : Env) (w : Window) (t : String),
      (w.set_title E t).value
        = outcome E.exec ("-r " ++ w.get ++ " -N " ++ t) { w with title := t }) ∧
    (∀ (E : Env) (w : Window) (t : String),
      (w.set_icon_title E t).value
        = outcome E.exec ("-r " ++ w.get ++ " -I " ++ t) w) ∧
    (∀ (E : Env) (w : Window) (t : String),
      (w.set_both_title E t).value
        = outcome E.exec ("-r " ++ w.get ++ " -T " ++ t) { w with title := t }) ∧
    (∀ (E : Env) (w : Window) (s : State),
      (w.change_state E s).value
        = outcome E.exec ("-r " ++ w.get ++ " -b " ++ s.display) w) ∧
    (∀ (E : Env) (w : Window) (t : Transformation),
      (w.transform E t).value
        = outcome E.exec ("-r " ++ w.get ++ " -e " ++ t.display)
            { w with transformation := t }) ∧
    (∀ (E : Env) (w : Window) (d : String),
      (w.set_desktop E d).value
        = outcome E.exec ("-r " ++ w.get ++ " -t " ++ d) { w with desktop := d }) ∧
    (∀ (E : Env) (w : Window),
      (w.activate E).value
        = outcome E.exec ("-R " ++ w.get) { w with desktop := get_current_desktop E }) ∧
    (∀ (E : Env) (w : Window),
      (w.raise E).value = outcome E.exec ("-a " ++ w.get) w) ∧
    (∀ (E : Env) (w : Window),
      (w.close E).value = outcome E.exec ("-c " ++ w.get) ()) := by
  refine ⟨?_, ?_, ?_, ?_, ?_, ?_, ?_, ?_, ?_, ?_, ?_, ?_⟩ <;> intros <;>
    first
      | exact wmctrl_value _ _
      | exact runOp_value _ _ _

/-- C2: Every window operation hands the shell exactly the documented
flag string for that operation, with the window designator produced by
`get()` (`"<id> -i"`): `set_title` issues `-r <WIN> -N <STR>`,
`set_icon_title` `-r <WIN> -I <STR>`, `set_both_title` `-r <WIN> -T
<STR>`, `change_state` `-r <WIN> -b <STARG>`, `transform` `-r <WIN> -e
<MVARG>`, `set_desktop` `-r <WIN> -t <DESK>`, `activate` `-R <WIN>`,
`raise` `-a <WIN>`, `close` `-c <WIN>`. -/
theorem window_ops_flag_strings :
    (∀ (E : Env) (w : Window) (t : String),
      (w.set_title E t).cmds = [shCmd ("-r " ++ w.get ++ " -N " ++ t)]) ∧
    (∀ (E : Env) (w : Window) (t : String),
      (w.set_icon_title E t).cmds = [shCmd ("-r " ++ w.get ++ " -I " ++ t)]) ∧
    (∀ (E : Env) (w : Window) (t : String),
      (w.set_both_title E t).cmds = [shCmd ("-r " ++ w.get ++ " -T " ++ t)]) ∧
    (∀ (E : Env) (w : Window) (s : State),
      (w.change_state E s).cmds = [shCmd ("-r " ++ w.get ++ " -b " ++ s.display)]) ∧
    (∀ (E : Env) (w : Window) (t : Transformation),
      (w.transform E t).cmds = [shCmd ("-r " ++ w.get ++ " -e " ++ t.display)]) ∧
    (∀ (E : Env) (w : Window) (d : String),
      (w.set_desktop E d).cmds = [shCmd ("-r " ++ w.get ++ " -t " ++ d)]) ∧
    (∀ (E : Env) (w : Window),
      (w.activate E).cmds = [shCmd ("-R " ++ w.get)]) ∧
    (∀ (E : Env) (w : Window),
      (w.raise E).cmds = [shCmd ("-a " ++ w.get)]) ∧
    (∀ (E : Env) (w : Window),
      (w.close E).cmds = [shCmd ("-c " ++ w.get)]) := by
  refine ⟨?_, ?_, ?_, ?_, ?_, ?_, ?_, ?_, ?_⟩ <;> intros <;> exact runOp_cmds _ _ _

/-- C3: Every mutating window operation that takes a new value sets
exactly the corresponding local field of the `Window` to the argument
value (`set_title` and `set_both_title` the `title` field, `transform`
the `transformation` field, `set_desktop` the `desktop` field, all
other fields untouched) and issues the single external command that
carries that new value. -/
theorem mutators_set_field_and_send_value :
    (∀ (E : Env) (w : Window) (t : String),
      (w.set_title E t).value
          = outcome E.exec ("-r " ++ w.get ++ " -N " ++ t) { w with title := t }
        ∧ (w.set_title E t).cmds = [shCmd ("-r " ++ w.get ++ " -N " ++ t)]) ∧
    (∀ (E : Env) (w : Window) (t : String),
      (w.set_both_title E t).value
          = outcome E.exec ("-r " ++ w.get ++ " -T " ++ t) { w with title := t }
        ∧ (w.set_both_title E t).cmds = [shCmd ("-r " ++ w.get ++ " -T " ++ t)]) ∧
    (∀ (E : Env) (w : Window) (t : Transformation),
      (w.transform E t).value
          = outcome E.exec ("-r " ++ w.get ++ " -e " ++ t.display)
              { w with transformation := t }
        ∧ (w.transform E t).cmds = [shCmd ("-r " ++ w.get ++ " -e " ++ t.display)]) ∧
    (∀ (E : Env) (w : Window) (d : String),
      (w.set_desktop E d).value
          = outcome E.exec ("-r " ++ w.get ++ " -t " ++ d) { w with desktop := d }
        ∧ (w.set_desktop E d).cmds = [shCmd ("-r " ++ w.get ++ " -t " ++ d)]) := by
  refine ⟨?_, ?_, ?_, ?_⟩ <;> intros <;>
    exact ⟨runOp_value _ _ _, runOp_cmds _ _ _⟩

/-- C4: `list_windows` hands the shell exactly the command line
`"wmctrl -l"` and `show_information_about_wm` exactly `"wmctrl -m"`;
neither takes any input beyond the environment. -/
theorem list_and_info_cmdlines :
    (∀ exec, (list_windows exec).cmds = ["wmctrl -l"]) ∧
    (∀ exec, (show_information_about_wm exec).cmds = ["wmctrl -m"]) := by
  constructor <;> intro exec <;> exact wmctrl_cmds exec _

/-- C5: Every public operation invokes the subprocess invoker exactly
once: each call hands the shell exactly one command line.  (The
current-desktop lookup used by `activate` lives outside the given
sources and is modelled, per the spec, as a pure environment read
without an invocation of its own.) -/
theorem each_op_invokes_subprocess_once :
    (∀ exec, (list_windows exec).cmds.length = 1) ∧
    (∀ exec, (show_information_about_wm exec).cmds.length = 1) ∧
    (∀ (E : Env) (w : Window) (t : String), (w.set_title E t).cmds.length = 1) ∧
    (∀ (E : Env) (w : Window) (t : String), (w.set_icon_title E t).cmds.length = 1) ∧
    (∀ (E : Env) (w : Window) (t : String), (w.set_both_title E t).cmds.length = 1) ∧
    (∀ (E : Env) (w : Window) (s : State), (w.change_state E s).cmds.length = 1) ∧
    (∀ (E : Env) (w : Window) (t : Transformation), (w.transform E t).cmds.length = 1) ∧
    (∀ (E : Env) (w : Window) (d : String), (w.set_desktop E d).cmds.length = 1) ∧
    (∀ (E : Env) (w : Window), (w.activate E).cmds.length = 1) ∧
    (∀ (E : Env) (w : Window), (w.raise E).cmds.length = 1) ∧
    (∀ (E : Env) (w : Window), (w.close E).cmds.length = 1) := by
  refine ⟨?_, ?_, ?_, ?_, ?_, ?_, ?_, ?_, ?_, ?_, ?_⟩ <;> intros <;>
    simp only [list_windows, show_information_about_wm, Window.set_title,
      Window.set_icon_title, Window.set_both_title, Window.change_state,
      Window.transform, Window.set_desktop, Window.activate, Window.raise,
      Window.close, runOp_cmds, wmctrl_cmds, List.length_singleton]

/-- C7: The line-oriented list parser splits each line of the external
tool's whitespace/tab-delimited stdout on whitespace into the fixed
fields — identifier, desktop, geometry (x, y, width, height), class,
client machine, with the remaining words forming the title — and
populates one window record from each line. -/
theorem parser_populates_record_from_line :
    (∀ (line : String) (i d x y w h c m : String) (rest : List String)
        (xi yi wi hi : Int),
      whitespaceSplit line = i :: d :: x :: y :: w :: h :: c :: m :: rest →
      strToInt? x = some xi → strToInt? y = some yi →
      strToInt? w = some wi → strToInt? h = some hi →
      parseLine line
        = some ⟨i, d, m, String.intercalate " " rest, ⟨xi, yi, wi, hi⟩, c⟩) ∧
    (∀ (stdout : String) (win : Window),
      win ∈ parseListOutput stdout →
      ∃ line, line ∈ linesOf stdout ∧ parseLine line = some win) := by
  constructor
  · intro line i d x y w h c m rest xi yi wi hi hsplit hx hy hw hh
    simp [parseLine, hsplit, hx, hy, hw, hh, Window.new]
  · intro stdout win hwin
    exact List.mem_filterMap.mp hwin

/-- Witness for C7 at a concrete two-line listing: the first line
parses to its fields, and a record produced from the second line of the
whole output indeed comes from one of its lines. -/
theorem parser_concrete_line :
    parseLine "0x04000007 1 10 20 960 540 term.Term host my title"
        = some ⟨"0x04000007", "1", "host", "my title",
            ⟨10, 20, 960, 540⟩, "term.Term"⟩
      ∧ ∃ line,
          line ∈ linesOf
            "0x04000007 1 10 20 960 540 term.Term host my title\n0x05 2 0 0 1 1 a.b other x"
          ∧ parseLine line = some ⟨"0x05", "2", "other", "x", ⟨0, 0, 1, 1⟩, "a.b"⟩ := by
  constructor
  · exact parser_populates_record_from_line.1
      "0x04000007 1 10 20 960 540 term.Term host my title"
      "0x04000007" "1" "10" "20" "960" "540" "term.Term" "host" ["my", "title"]
      10 20 960 540 (by decide) (by decide) (by decide) (by decide) (by decide)
  · exact parser_populates_record_from_line.2
      "0x04000007 1 10 20 960 540 term.Term host my title\n0x05 2 0 0 1 1 a.b other x"
      ⟨"0x05", "2", "other", "x", ⟨0, 0, 1, 1⟩, "a.b"⟩ (by decide)

/-- C8: `set_icon_title`, `change_state` and `raise` leave every field
of the window unchanged — on success each returns the window exactly as
it was — and in particular `set_icon_title` sends the title string in
its command without updating the stored title. -/
theorem readonly_ops_preserve_window :
    (∀ (E : Env) (w : Window) (t : String),
      (w.set_icon_title E t).value
          = outcome E.exec ("-r " ++ w.get ++ " -I " ++ t) w
        ∧ (w.set_icon_title E t).cmds = [shCmd ("-r " ++ w.get ++ " -I " ++ t)]) ∧
    (∀ (E : Env) (w : Window) (s : State),
      (w.change_state E s).value
        = outcome E.exec ("-r " ++ w.get ++ " -b " ++ s.display) w) ∧
    (∀ (E : Env) (w : Window),
      (w.raise E).value = outcome E.exec ("-a " ++ w.get) w) := by
  refine ⟨?_, ?_, ?_⟩ <;> intros <;>
    first
      | exact ⟨runOp_value _ _ _, runOp_cmds _ _ _⟩
      | exact runOp_value _ _ _

/-- Rearranging the command line `set_title` builds: the formatted
pieces concatenate to one flat string in which the title follows
`" -N "` directly. -/
theorem shCmd_set_title_flat (id t : String) :
    shCmd ("-r " ++ (id ++ " -i") ++ " -N " ++ t)
      = "wmctrl -r " ++ id ++ " -i -N " ++ t := by
  have h1 : ("wmctrl " : String) ++ "-r " = "wmctrl -r " := rfl
  have h2 : (" -i" : String) ++ " -N " = " -i -N " := rfl
  simp only [shCmd, ← String.append_assoc]
  rw [h1, String.append_assoc ("wmctrl -r " ++ id) " -i" " -N ", h2]

/-- C9: Caller-supplied title strings are inserted into the shell
command line verbatim, with no quoting or escaping: the line handed to
`sh -c` by `set_title` is the literal concatenation
`"wmctrl -r " ++ id ++ " -i -N " ++ t`.  Consequently a title
containing whitespace is not delivered to the external tool as a
single argument: under POSIX field splitting of the unquoted command
line, the title `"a b"` becomes the two words `"a"` and `"b"`. -/
theorem title_inserted_verbatim_unquoted :
    (∀ (E : Env) (w : Window) (t : String),
      (w.set_title E t).cmds = ["wmctrl -r " ++ w.id ++ " -i -N " ++ t]) ∧
    whitespaceSplit ("wmctrl -r 0x1 -i -N " ++ "a b")
      = ["wmctrl", "-r", "0x1", "-i", "-N", "a", "b"] := by
  constructor
  · intro E w t
    show (runOp E.exec ("-r " ++ (w.id ++ " -i") ++ " -N " ++ t)
        { w with title := t }).cmds = _
    rw [runOp_cmds, shCmd_set_title_flat w.id t]
  · decide

/-- C10: `activate` sets the window's local `desktop` field to the
value returned by `get_current_desktop` — the desktop current at the
time of the call, not a caller-supplied value — leaves all other
fields unchanged, and issues the single command `-R <WIN>`. -/
theorem activate_sets_desktop_to_current :
    ∀ (E : Env) (w : Window),
      (w.activate E).value
          = outcome E.exec ("-R " ++ w.get)
              { w with desktop := get_current_desktop E }
        ∧ (w.activate E).cmds = [shCmd ("-R " ++ w.get)] := by
  intro E w
  exact ⟨runOp_value _ _ _, runOp_cmds _ _ _⟩

end Wmctrl
